import Mathlib

/-!
Shallow embedding of `src/bioviz/biorbd_vtk.py` (class `VtkModel` and its
interaction with the parent window's renderer), together with proofs about
the actor-set synchronization and update protocol.

Conventions of the embedding:
* pyomeca payloads (`Markers`, `Mesh`, `Rototrans`) are records carrying the
  observable quantities the code reads: `time.size`, `channel.size` (the
  length of the point list) and the per-channel 3D data, with rational
  coordinates;
* the parent window's renderer (`self.parent_window.ren`) is observed through
  event counters: how many `AddActor`, `RemoveActor` and `ResetCamera` calls
  it has received;
* Python exceptions become `Except Err`; an `IndexError` raised by the
  "should be from one frame only" guards is `Err.invalidFrame`;
* the mutual recursion `update_markers -> new_marker_set -> update_markers`
  is embedded with an explicit fuel parameter; fuel 3 is provably enough
  (the inner call always takes the fast path), see `updateMarkersF_fuel`.
-/

namespace BiorbdVtk

/-- 3D coordinates (one channel of one frame). -/
abbrev Vec3 : Type := ℚ × ℚ × ℚ

/-- An RGB color triple, components in the 0-1 range. -/
abbrev Color : Type := ℚ × ℚ × ℚ

/-- A pyomeca `Markers`-style payload: `timeSize` is `payload.time.size`,
`points` has one entry per channel (so `points.length` is
`payload.channel.size`). -/
structure Frame where
  timeSize : Nat
  points : List Vec3
deriving DecidableEq

/-- Observable effect counters of the parent window's vtk renderer:
number of `AddActor`, `RemoveActor` and `ResetCamera` calls received. -/
structure Scene where
  addCount : Nat
  removeCount : Nat
  resetCount : Nat
deriving DecidableEq

/-- Errors raised by the embedded code. `invalidFrame` is the `IndexError`
with message "... should be from one frame only", `typeInput` the
`TypeError` of the duck-typed collection inputs, `duplicateInit` the
`RuntimeError` of `create_global_ref_frame`, `attributeError` Python's
`AttributeError` on a missing method, `indexErr` an out-of-range list or
array access, and `outOfFuel` marks exhaustion of the explicit recursion
fuel (never reached at the fuel values used below). -/
inductive Err where
  | invalidFrame
  | typeInput
  | duplicateInit
  | attributeError
  | indexErr
  | outOfFuel
deriving DecidableEq

/-- The sphere geometry `vtkSphereSource` of a marker-like actor:
`SetCenter`/`SetRadius` values. -/
structure SphereGeom where
  center : Vec3
  radius : ℚ
deriving DecidableEq

/-- A marker-like `vtkActor`. A freshly created actor (during a rebuild)
has no sphere source connected and no style applied yet, hence the
`Option`s. -/
structure SphereActor where
  color : Option Color
  opacity : Option ℚ
  geom : Option SphereGeom
deriving DecidableEq

/-- A freshly created actor, as produced inside `new_marker_set`'s creation
loop: a `vtkActor` with an empty `vtkPolyDataMapper` and default
properties, before any geometry or style has been applied. -/
def SphereActor.fresh : SphereActor := { color := none, opacity := none, geom := none }

/-- The per-category slice of `VtkModel` state for a sphere category
(markers, contacts, global/segments center of mass): the stored frame,
the style fields and the actor list. -/
structure MarkersState where
  markers : Frame
  size : ℚ
  color : Color
  opacity : ℚ
  actors : List SphereActor
deriving DecidableEq

/-- Result of an update/rebuild call on a sphere category: the renderer
counters, the new category state, and instrumentation counting how many
fast-path update passes and how many rebuilds were executed during the
call. -/
structure MUpdateResult where
  scene : Scene
  state : MarkersState
  passes : Nat
  rebuilds : Nat
deriving DecidableEq

/-- The body of `update_markers`' fast-path loop: for each actor index
`i`, set the property color and opacity and connect a new sphere source
centered at channel `i` of the incoming frame with the configured radius.
The loop runs over the existing actor list. -/
def markersFastActors (s : MarkersState) (f : Frame) : List SphereActor :=
  (List.range s.actors.length).map fun i =>
    { color := some s.color, opacity := some s.opacity,
      geom := some { center := f.points.getD i ((0:ℚ), 0, 0), radius := s.size } }

mutual

/-- `VtkModel.update_markers` (src/bioviz/biorbd_vtk.py:312-338), with
explicit fuel for the mutual recursion with `new_marker_set`. Checks the
one-frame guard, dispatches to the rebuild when the incoming channel count
differs from the stored frame's, and otherwise runs the fast-path loop.
The fast-path loop indexes the numpy data at each actor index, so it
raises an index error when there are more actors than channels. -/
def updateMarkersF : Nat → Scene → MarkersState → Frame → Except Err MUpdateResult
  | 0, _, _, _ => .error .outOfFuel
  | n + 1, w, s, f =>
    if f.timeSize ≠ 1 then .error .invalidFrame
    else if f.points.length ≠ s.markers.points.length then
      newMarkerSetF n w s f
    else
      let s1 : MarkersState := { s with markers := f }
      if s1.actors.length ≤ f.points.length then
        .ok { scene := w, state := { s1 with actors := markersFastActors s1 f },
              passes := 1, rebuilds := 0 }
      else .error .indexErr

/-- `VtkModel.new_marker_set` (src/bioviz/biorbd_vtk.py:279-310): checks
the one-frame guard, stores the frame, removes every previous actor from
the renderer, creates one fresh actor per channel (calling `AddActor` and
`ResetCamera` once per created actor), and ends by calling
`update_markers` on the stored frame. -/
def newMarkerSetF : Nat → Scene → MarkersState → Frame → Except Err MUpdateResult
  | 0, _, _, _ => .error .outOfFuel
  | n + 1, w, s, f =>
    if f.timeSize ≠ 1 then .error .invalidFrame
    else
      let s1 : MarkersState := { s with markers := f }
      let w1 : Scene := { w with removeCount := w.removeCount + s1.actors.length }
      let s2 : MarkersState := { s1 with actors := List.replicate f.points.length SphereActor.fresh }
      let w2 : Scene := { w1 with addCount := w1.addCount + f.points.length,
                                  resetCount := w1.resetCount + f.points.length }
      (updateMarkersF n w2 s2 f).map fun r => { r with rebuilds := r.rebuilds + 1 }

end

/-- `update_markers` with adequate fuel (see `updateMarkersF_fuel`). -/
def updateMarkers (w : Scene) (s : MarkersState) (f : Frame) : Except Err MUpdateResult :=
  updateMarkersF 3 w s f

/-- `new_marker_set` with adequate fuel. -/
def newMarkerSet (w : Scene) (s : MarkersState) (f : Frame) : Except Err MUpdateResult :=
  newMarkerSetF 2 w s f

/-- When the incoming channel count matches the stored one, `update_markers`
takes the fast path and consumes no fuel: the result does not depend on the
fuel value. -/
theorem updateMarkersF_fast (n : Nat) (w : Scene) (s : MarkersState) (f : Frame)
    (h : f.points.length = s.markers.points.length) :
    updateMarkersF (n + 1) w s f = updateMarkersF 1 w s f := by
  simp [updateMarkersF, h]

/-- Fuel adequacy: any fuel of at least 3 gives the same result as fuel 3,
because the inner `update_markers` call performed by a rebuild always takes
the fast path (the frame just stored has the same channel count as the
argument). -/
theorem updateMarkersF_fuel (n : Nat) (w : Scene) (s : MarkersState) (f : Frame) :
    updateMarkersF (n + 3) w s f = updateMarkersF 3 w s f := by
  by_cases ht : f.timeSize = 1
  · by_cases hc : f.points.length = s.markers.points.length
    · rw [show n + 3 = (n + 2) + 1 from rfl, updateMarkersF_fast (n + 2) w s f hc,
        show (3 : Nat) = 2 + 1 from rfl, updateMarkersF_fast 2 w s f hc]
    · show updateMarkersF ((n + 2) + 1) w s f = updateMarkersF (2 + 1) w s f
      simp only [updateMarkersF, ht, hc, if_neg, ite_false, not_true_eq_false, ite_not]
      simp only [newMarkerSetF, ht, not_true_eq_false, if_false, ite_false]
      rw [show n + 1 = n + 0 + 1 from rfl, updateMarkersF_fast n _ _ f (by simp),
        show (1 : Nat) = 0 + 1 from rfl, updateMarkersF_fast 0 _ _ f (by simp)]
  · show updateMarkersF ((n + 2) + 1) w s f = updateMarkersF (2 + 1) w s f
    simp [updateMarkersF, ht]

/-- Equality of `Except` values is decidable; needed so that concrete runs
of the embedded operations can be checked by `decide`. -/
instance exceptDecEq {ε α : Type} [DecidableEq ε] [DecidableEq α] : DecidableEq (Except ε α)
  | .ok a, .ok b =>
    if h : a = b then .isTrue (by rw [h]) else .isFalse (fun hh => by cases hh; exact h rfl)
  | .error a, .error b =>
    if h : a = b then .isTrue (by rw [h]) else .isFalse (fun hh => by cases hh; exact h rfl)
  | .ok _, .error _ => .isFalse (fun hh => by cases hh)
  | .error _, .ok _ => .isFalse (fun hh => by cases hh)

/-- A renderer that has received no calls yet. -/
def scene0 : Scene := { addCount := 0, removeCount := 0, resetCount := 0 }

/-- The rational 1/100, given in lowest terms so that concrete states built
from it stay kernel-computable (see `qMarkersSize_eq`). -/
def qMarkersSize : ℚ := ⟨1, 100, by decide, Nat.coprime_one_left _⟩

/-- Sanity check: `qMarkersSize` is the source's `markers_size=0.010`. -/
theorem qMarkersSize_eq : qMarkersSize = 1 / 100 := by
  rw [qMarkersSize]
  norm_num [Rat.mk'_eq_divInt, Rat.divInt_eq_div]

/-- The markers slice of `VtkModel.__init__` with the default constructor
arguments: an empty `Markers()` payload (one time sample, zero channels),
`markers_size=0.010`, `markers_color=(1, 1, 1)`, `markers_opacity=1.0` and
no actors. -/
def initMarkersState : MarkersState :=
  { markers := { timeSize := 1, points := [] },
    size := qMarkersSize, color := (1, 1, 1), opacity := 1, actors := [] }

/-- `VtkModel.set_markers_color` (src/bioviz/biorbd_vtk.py:243-252): store
the new color, then call `update_markers` on the stored frame. -/
def setMarkersColor (w : Scene) (s : MarkersState) (c : Color) : Except Err MUpdateResult :=
  updateMarkers w { s with color := c } s.markers

/-- `VtkModel.set_markers_size` (src/bioviz/biorbd_vtk.py:254-263). -/
def setMarkersSize (w : Scene) (s : MarkersState) (v : ℚ) : Except Err MUpdateResult :=
  updateMarkers w { s with size := v } s.markers

/-- `VtkModel.set_markers_opacity` (src/bioviz/biorbd_vtk.py:265-277). -/
def setMarkersOpacity (w : Scene) (s : MarkersState) (v : ℚ) : Except Err MUpdateResult :=
  updateMarkers w { s with opacity := v } s.markers

/-- The post-update invariant of the sphere categories: the number of live
actors equals the channel count of the most recently accepted frame. -/
def markersInv (s : MarkersState) : Prop := s.actors.length = s.markers.points.length

/-- Characterization of `update_markers` when the incoming channel count
matches the stored frame's: the one-frame guard may fire, the body may
index out of the numpy data, and otherwise the call is the fast-path pass
that leaves the renderer untouched. -/
theorem updateMarkers_fast_eq (w : Scene) (s : MarkersState) (f : Frame)
    (h : f.points.length = s.markers.points.length) :
    updateMarkers w s f =
      if f.timeSize ≠ 1 then .error .invalidFrame
      else if s.actors.length ≤ f.points.length then
        .ok { scene := w, state := { s with markers := f, actors := markersFastActors s f },
              passes := 1, rebuilds := 0 }
      else .error .indexErr := by
  show updateMarkersF (2 + 1) w s f = _
  simp only [updateMarkersF, h]
  split
  · rfl
  · split
    · exact absurd rfl (by assumption)
    · rfl

/-- Characterization of `update_markers` when the incoming channel count
differs from the stored frame's: the call dispatches to `new_marker_set`,
which removes every previous actor, adds and camera-resets once per new
channel, and ends with a single fast-path update pass. -/
theorem updateMarkers_rebuild_eq (w : Scene) (s : MarkersState) (f : Frame)
    (hc : f.points.length ≠ s.markers.points.length) (ht : f.timeSize = 1) :
    updateMarkers w s f = .ok
      { scene := { addCount := w.addCount + f.points.length,
                   removeCount := w.removeCount + s.actors.length,
                   resetCount := w.resetCount + f.points.length },
        state := { markers := f, size := s.size, color := s.color, opacity := s.opacity,
                   actors := (List.range f.points.length).map fun i =>
                     { color := some s.color, opacity := some s.opacity,
                       geom := some { center := f.points.getD i ((0:ℚ), 0, 0),
                                      radius := s.size } } },
        passes := 1, rebuilds := 1 } := by
  show updateMarkersF (2 + 1) w s f = _
  simp [updateMarkersF, newMarkerSetF, ht, hc, markersFastActors, Except.map]

/-- The rebuild path of `update_markers` also behaves the same through the
direct `new_marker_set` entry point. -/
theorem newMarkerSet_eq (w : Scene) (s : MarkersState) (f : Frame) (ht : f.timeSize = 1) :
    newMarkerSet w s f = .ok
      { scene := { addCount := w.addCount + f.points.length,
                   removeCount := w.removeCount + s.actors.length,
                   resetCount := w.resetCount + f.points.length },
        state := { markers := f, size := s.size, color := s.color, opacity := s.opacity,
                   actors := (List.range f.points.length).map fun i =>
                     { color := some s.color, opacity := some s.opacity,
                       geom := some { center := f.points.getD i ((0:ℚ), 0, 0),
                                      radius := s.size } } },
        passes := 1, rebuilds := 1 } := by
  show newMarkerSetF (1 + 1) w s f = _
  simp [newMarkerSetF, updateMarkersF, ht, markersFastActors, Except.map]

/-- `update_markers` rejects payloads spanning several (or zero) time
samples before doing anything else. -/
theorem updateMarkers_time_err (w : Scene) (s : MarkersState) (f : Frame)
    (ht : f.timeSize ≠ 1) : updateMarkers w s f = .error .invalidFrame := by
  show updateMarkersF (2 + 1) w s f = _
  simp [updateMarkersF, ht]

/-- Preservation of the post-update invariant by one `update_markers` call. -/
theorem updateMarkers_inv (w : Scene) (s : MarkersState) (f : Frame) (r : MUpdateResult)
    (hs : markersInv s) (h : updateMarkers w s f = .ok r) : markersInv r.state := by
  by_cases ht : f.timeSize = 1
  · by_cases hc : f.points.length = s.markers.points.length
    · rw [updateMarkers_fast_eq w s f hc, if_neg (by simp [ht])] at h
      split at h
      · cases h
        simpa [markersInv, markersFastActors] using hs.trans hc.symm
      · cases h
    · rw [updateMarkers_rebuild_eq w s f hc ht] at h
      cases h
      simp [markersInv]
  · rw [updateMarkers_time_err w s f ht] at h
    cases h

/-- Elements of a mapped range list, looked up with a default. -/
theorem getD_range_map {α : Type} (g : Nat → α) (n i : Nat) (d : α) (h : i < n) :
    ((List.range n).map g).getD i d = g i := by
  rw [List.getD_eq_getElem?_getD, List.getElem?_map, List.getElem?_range h]
  rfl

/-- A one-channel single-time-sample marker frame with the point (1, 2, 3). -/
def frameOnePoint : Frame := { timeSize := 1, points := [(1, 2, 3)] }

/-- The result of pushing `frameOnePoint` into the freshly constructed
marker category: a rebuild creating one actor. -/
def markersResultOne : MUpdateResult :=
  { scene := { addCount := 1, removeCount := 0, resetCount := 1 },
    state := { markers := frameOnePoint, size := qMarkersSize, color := (1, 1, 1), opacity := 1,
               actors := [{ color := some (1, 1, 1), opacity := some 1,
                            geom := some { center := (1, 2, 3), radius := qMarkersSize } }] },
    passes := 1, rebuilds := 1 }

/-- C2: for a single-frame input, `update_markers` takes the rebuild path
exactly when the incoming channel count differs from the stored frame's
(the fresh state stores an empty frame, so the very first call with a
nonempty frame rebuilds), the fast-path update pass runs exactly once for
the push, and in the equal-channel-count case the call leaves the renderer
untouched (no actor added or removed, no camera reset), keeps the style
fields and the actor count, and only re-applies style and sphere geometry
to each existing actor. -/
theorem updateMarkers_dispatch (w : Scene) (s : MarkersState) (f : Frame) (r : MUpdateResult)
    (ht : f.timeSize = 1) (h : updateMarkers w s f = .ok r) :
    r.passes = 1 ∧
    (r.rebuilds = 1 ↔ f.points.length ≠ s.markers.points.length) ∧
    (f.points.length = s.markers.points.length →
      r.scene = w ∧ r.state.markers = f ∧
      r.state.size = s.size ∧ r.state.color = s.color ∧ r.state.opacity = s.opacity ∧
      r.state.actors.length = s.actors.length ∧
      ∀ i, i < s.actors.length →
        r.state.actors.getD i SphereActor.fresh =
          { color := some s.color, opacity := some s.opacity,
            geom := some { center := f.points.getD i ((0:ℚ), 0, 0), radius := s.size } }) := by
  by_cases hc : f.points.length = s.markers.points.length
  · rw [updateMarkers_fast_eq w s f hc, if_neg (by simp [ht])] at h
    split at h
    · cases h
      refine ⟨rfl, by simp [hc], fun _ => ⟨rfl, rfl, rfl, rfl, rfl,
        by simp [markersFastActors], ?_⟩⟩
      intro i hi
      simp only [markersFastActors]
      rw [getD_range_map _ _ _ _ hi]
    · cases h
  · rw [updateMarkers_rebuild_eq w s f hc ht] at h
    cases h
    exact ⟨rfl, by simp [hc], fun hcc => absurd hcc hc⟩

/-- Witness for `updateMarkers_dispatch`: the first push of a one-point
frame into the fresh marker category, checked by evaluation. -/
theorem updateMarkers_dispatch_witness :
    frameOnePoint.timeSize = 1 ∧
    updateMarkers scene0 initMarkersState frameOnePoint = .ok markersResultOne ∧
    (markersResultOne.passes = 1 ∧
     (markersResultOne.rebuilds = 1 ↔
       frameOnePoint.points.length ≠ initMarkersState.markers.points.length) ∧
     (frameOnePoint.points.length = initMarkersState.markers.points.length →
       markersResultOne.scene = scene0 ∧ markersResultOne.state.markers = frameOnePoint ∧
       markersResultOne.state.size = initMarkersState.size ∧
       markersResultOne.state.color = initMarkersState.color ∧
       markersResultOne.state.opacity = initMarkersState.opacity ∧
       markersResultOne.state.actors.length = initMarkersState.actors.length ∧
       ∀ i, i < initMarkersState.actors.length →
         markersResultOne.state.actors.getD i SphereActor.fresh =
           { color := some initMarkersState.color, opacity := some initMarkersState.opacity,
             geom := some { center := frameOnePoint.points.getD i ((0:ℚ), 0, 0),
                            radius := initMarkersState.size } })) :=
  ⟨rfl, by decide,
    updateMarkers_dispatch scene0 initMarkersState frameOnePoint markersResultOne rfl (by decide)⟩

/-- One `Rototrans` of a single frame: a translation and the three basis
columns read by `update_rt` via `rt.meca.translation` and `rt.isel(col=i)`. -/
structure Rt where
  timeSize : Nat
  translation : Vec3
  colX : Vec3
  colY : Vec3
  colZ : Vec3
deriving DecidableEq

/-- An rt actor: the 4 points of its `vtkPolyData` (origin and three axis
tips) and the line width applied at creation. The fixed 3-line topology and
the per-segment RGB colors are set once at creation identically for every
actor, so they are not part of the per-actor state. -/
structure RtActor where
  pts : List Vec3
  width : ℚ
deriving DecidableEq

/-- The rt slice of `VtkModel` state: arity `n_rt`, the stored rt list, the
configured axis length/width and the actor list. -/
structure RtState where
  n_rt : Nat
  all_rt : List Rt
  rt_length : ℚ
  rt_width : ℚ
  actors : List RtActor
deriving DecidableEq

/-- Result of an `update_rt`/`new_rt_set` call. -/
structure RtResult where
  scene : Scene
  state : RtState
  passes : Nat
  rebuilds : Nat
deriving DecidableEq

/-- Componentwise vector addition. -/
def vadd (a b : Vec3) : Vec3 := (a.1 + b.1, a.2.1 + b.2.1, a.2.2 + b.2.2)

/-- Scaling of a vector by a rational. -/
def vsmul (c : ℚ) (a : Vec3) : Vec3 := (c * a.1, c * a.2.1, c * a.2.2)

/-- The 4 points `update_rt` computes for one transform: the translation,
and the translation plus each basis column scaled by the configured axis
length (src/bioviz/biorbd_vtk.py:1139-1143). -/
def rtAxisPts (len : ℚ) (rt : Rt) : List Vec3 :=
  [rt.translation, vadd rt.translation (vsmul len rt.colX),
   vadd rt.translation (vsmul len rt.colY), vadd rt.translation (vsmul len rt.colZ)]

/-- A freshly created rt actor: the generic unit system of axes built by
`new_rt_set` before `update_rt` repositions it. -/
def rtFreshActor (width : ℚ) : RtActor :=
  { pts := [((0:ℚ), 0, 0), (1, 0, 0), (0, 1, 0), (0, 0, 1)], width := width }

/-- The fast-path loop of `update_rt`: for each transform in order, check
the one-frame guard, then reposition the corresponding actor's 4 points;
indexing past the end of the actor list is an index error. Actors beyond
the transform list are left untouched. -/
def rtFastLoop (len : ℚ) : List Rt → List RtActor → Except Err (List RtActor)
  | [], acts => .ok acts
  | rt :: rest, acts =>
    if rt.timeSize ≠ 1 then .error .invalidFrame
    else
      match acts with
      | [] => .error .indexErr
      | a :: arest =>
        (rtFastLoop len rest arest).map fun tail => ({ a with pts := rtAxisPts len rt }) :: tail

mutual

/-- `VtkModel.update_rt` (src/bioviz/biorbd_vtk.py:1111-1147): dispatch to
`new_rt_set` when the number of transforms differs from the stored arity,
otherwise store the list and run the fast-path repositioning loop. -/
def updateRtF : Nat → Scene → RtState → List Rt → Except Err RtResult
  | 0, _, _, _ => .error .outOfFuel
  | n + 1, w, s, rts =>
    if rts.length ≠ s.n_rt then newRtSetF n w s rts
    else
      let s1 : RtState := { s with all_rt := rts }
      (rtFastLoop s.rt_length rts s1.actors).map fun acts =>
        { scene := w, state := { s1 with actors := acts }, passes := 1, rebuilds := 0 }

/-- `VtkModel.new_rt_set` (src/bioviz/biorbd_vtk.py:1026-1109): remove the
previous actors, create one generic axes actor per transform (one
`AddActor` and one `ResetCamera` each), store the new arity, and end with
`update_rt` on the same list. -/
def newRtSetF : Nat → Scene → RtState → List Rt → Except Err RtResult
  | 0, _, _, _ => .error .outOfFuel
  | n + 1, w, s, rts =>
    let w1 : Scene := { w with removeCount := w.removeCount + s.actors.length }
    let s1 : RtState := { s with actors := [] }
    if rts.any (fun rt => rt.timeSize ≠ 1) then .error .invalidFrame
    else
      let s2 : RtState := { s1 with actors := List.replicate rts.length (rtFreshActor s.rt_width),
                                    n_rt := rts.length }
      let w2 : Scene := { w1 with addCount := w1.addCount + rts.length,
                                  resetCount := w1.resetCount + rts.length }
      (updateRtF n w2 s2 rts).map fun r => { r with rebuilds := r.rebuilds + 1 }

end

/-- `update_rt` with adequate fuel. -/
def updateRt (w : Scene) (s : RtState) (rts : List Rt) : Except Err RtResult :=
  updateRtF 3 w s rts

/-- Repositioning the rt actors is idempotent: running the fast-path loop
again over its own output changes nothing. -/
theorem rtFastLoop_idem (len : ℚ) :
    ∀ (rts : List Rt) (acts acts' : List RtActor),
      rtFastLoop len rts acts = .ok acts' → rtFastLoop len rts acts' = .ok acts' := by
  intro rts
  induction rts with
  | nil =>
    intro acts acts' h
    simp only [rtFastLoop] at h ⊢
  | cons rt rest ih =>
    intro acts acts' h
    by_cases hts : rt.timeSize ≠ 1
    · simp only [rtFastLoop, if_pos hts] at h
      cases h
    · cases acts with
      | nil =>
        simp only [rtFastLoop, if_neg hts] at h
        cases h
      | cons a arest =>
        simp only [rtFastLoop, if_neg hts] at h
        cases hm : rtFastLoop len rest arest with
        | error e =>
          rw [hm] at h
          simp only [Except.map] at h
          cases h
        | ok tail =>
          rw [hm] at h
          simp only [Except.map, Except.ok.injEq] at h
          cases h
          simp only [rtFastLoop, if_neg hts]
          rw [ih arest tail hm]
          simp only [Except.map]

/-- C9: pushing the same single-frame payload twice in succession through a
matching-arity update leaves the model (actors, geometry, style, renderer
counters) exactly as pushing it once: the second call returns the same
result as the first, for the marker category and for the rt category. -/
theorem same_arity_update_idempotent :
    (∀ w s f r, f.timeSize = 1 → f.points.length = s.markers.points.length →
       updateMarkers w s f = .ok r → updateMarkers r.scene r.state f = .ok r) ∧
    (∀ w s rts r, rts.length = s.n_rt →
       updateRt w s rts = .ok r → updateRt r.scene r.state rts = .ok r) := by
  constructor
  · intro w s f r ht hc h
    rw [updateMarkers_fast_eq w s f hc, if_neg (by simp [ht])] at h
    split at h
    case isTrue ha =>
      cases h
      rw [updateMarkers_fast_eq _ _ f rfl, if_neg (by simp [ht]),
        if_pos (by simpa [markersFastActors] using ha)]
      simp [markersFastActors]
    case isFalse => cases h
  · intro w s rts r hn h
    have hng : ¬(rts.length ≠ s.n_rt) := by simp [hn]
    unfold updateRt at h ⊢
    simp only [updateRtF, if_neg hng] at h
    cases hm : rtFastLoop s.rt_length rts s.actors with
    | error e =>
      rw [hm] at h
      simp only [Except.map] at h
      cases h
    | ok acts =>
      rw [hm] at h
      simp only [Except.map, Except.ok.injEq] at h
      cases h
      simp only [updateRtF, if_neg hng]
      rw [rtFastLoop_idem s.rt_length rts s.actors acts hm]
      simp only [Except.map]

/-- A one-point frame used by the idempotence witness. -/
def idemFrame : Frame := { timeSize := 1, points := [(4, 5, 6)] }

/-- A one-actor marker state with matching arity for the idempotence
witness. -/
def idemMarkersState : MarkersState :=
  { markers := { timeSize := 1, points := [(0, 0, 0)] },
    size := 2, color := (0, 1, 0), opacity := 1, actors := [SphereActor.fresh] }

/-- The fast-path result of pushing `idemFrame` into `idemMarkersState`. -/
def idemMarkersResult : MUpdateResult :=
  { scene := scene0,
    state := { markers := idemFrame, size := 2, color := (0, 1, 0), opacity := 1,
               actors := [{ color := some (0, 1, 0), opacity := some 1,
                            geom := some { center := (4, 5, 6), radius := 2 } }] },
    passes := 1, rebuilds := 0 }

/-- A single-frame transform for the idempotence witness. -/
def idemRt : Rt :=
  { timeSize := 1, translation := (1, 1, 1),
    colX := (1, 0, 0), colY := (0, 1, 0), colZ := (0, 0, 1) }

/-- A one-actor rt state with matching arity for the idempotence witness. -/
def idemRtState : RtState :=
  { n_rt := 1, all_rt := [], rt_length := 2, rt_width := 3, actors := [rtFreshActor 3] }

/-- The fast-path result of pushing `[idemRt]` into `idemRtState`. -/
def idemRtResult : RtResult :=
  { scene := scene0,
    state := { n_rt := 1, all_rt := [idemRt], rt_length := 2, rt_width := 3,
               actors := [{ pts := rtAxisPts 2 idemRt, width := 3 }] },
    passes := 1, rebuilds := 0 }

/-- Witness for `same_arity_update_idempotent`: concrete same-arity pushes
for both categories, repeated twice, checked by evaluation. -/
theorem same_arity_update_idempotent_witness :
    (idemFrame.timeSize = 1 ∧
     idemFrame.points.length = idemMarkersState.markers.points.length ∧
     updateMarkers scene0 idemMarkersState idemFrame = .ok idemMarkersResult ∧
     updateMarkers idemMarkersResult.scene idemMarkersResult.state idemFrame =
       .ok idemMarkersResult) ∧
    (([idemRt].length = idemRtState.n_rt) ∧
     updateRt scene0 idemRtState [idemRt] = .ok idemRtResult ∧
     updateRt idemRtResult.scene idemRtResult.state [idemRt] = .ok idemRtResult) :=
  ⟨⟨rfl, rfl, by decide,
    same_arity_update_idempotent.1 scene0 idemMarkersState idemFrame idemMarkersResult rfl rfl
      (by decide)⟩,
   ⟨rfl, by rfl,
    same_arity_update_idempotent.2 scene0 idemRtState [idemRt] idemRtResult rfl (by rfl)⟩⟩

mutual

/-- `VtkModel.update_global_center_of_mass` (src/bioviz/biorbd_vtk.py:507-532):
same shape as `update_markers` — one-frame guard on `time.size`, dispatch to
the rebuild on a channel-count change, otherwise the fast-path style and
sphere pass over the existing actors. -/
def updateGlobalComF : Nat → Scene → MarkersState → Frame → Except Err MUpdateResult
  | 0, _, _, _ => .error .outOfFuel
  | n + 1, w, s, f =>
    if f.timeSize ≠ 1 then .error .invalidFrame
    else if f.points.length ≠ s.markers.points.length then
      newGlobalComSetF n w s f
    else
      let s1 : MarkersState := { s with markers := f }
      if s1.actors.length ≤ f.points.length then
        .ok { scene := w, state := { s1 with actors := markersFastActors s1 f },
              passes := 1, rebuilds := 0 }
      else .error .indexErr

/-- `VtkModel.new_global_center_of_mass_set` (src/bioviz/biorbd_vtk.py:473-505).
Unlike every other rebuild, its leading guard (line 483) tests
`global_center_of_mass.channel.size != 1` — the CHANNEL count — while
raising the "should be from one frame only" error; the rest mirrors
`new_marker_set`. -/
def newGlobalComSetF : Nat → Scene → MarkersState → Frame → Except Err MUpdateResult
  | 0, _, _, _ => .error .outOfFuel
  | n + 1, w, s, f =>
    if f.points.length ≠ 1 then .error .invalidFrame
    else
      let s1 : MarkersState := { s with markers := f }
      let w1 : Scene := { w with removeCount := w.removeCount + s1.actors.length }
      let s2 : MarkersState := { s1 with actors := List.replicate f.points.length SphereActor.fresh }
      let w2 : Scene := { w1 with addCount := w1.addCount + f.points.length,
                                  resetCount := w1.resetCount + f.points.length }
      (updateGlobalComF n w2 s2 f).map fun r => { r with rebuilds := r.rebuilds + 1 }

end

/-- `update_global_center_of_mass` with adequate fuel. -/
def updateGlobalCom (w : Scene) (s : MarkersState) (f : Frame) : Except Err MUpdateResult :=
  updateGlobalComF 3 w s f

/-- `new_global_center_of_mass_set` with adequate fuel. -/
def newGlobalComSet (w : Scene) (s : MarkersState) (f : Frame) : Except Err MUpdateResult :=
  newGlobalComSetF 2 w s f

/-- The rational 3/400 in lowest terms (see `qComSize_eq`). -/
def qComSize : ℚ := ⟨3, 400, by decide, by norm_num [Nat.Coprime]⟩

/-- Sanity check: `qComSize` is the source's
`global_center_of_mass_size=0.0075`. -/
theorem qComSize_eq : qComSize = 3 / 400 := by
  rw [qComSize]
  norm_num [Rat.mk'_eq_divInt, Rat.divInt_eq_div]

/-- The global center-of-mass slice of `VtkModel.__init__` with the default
constructor arguments: empty payload, size 0.0075, color (0, 0, 0),
opacity 1.0, no actors. -/
def initGlobalComState : MarkersState :=
  { markers := { timeSize := 1, points := [] },
    size := qComSize, color := (0, 0, 0), opacity := 1, actors := [] }

/-- A single-time-sample, two-channel center-of-mass payload. -/
def comFrameTwo : Frame := { timeSize := 1, points := [(1, 0, 0), (2, 0, 0)] }

/-- C4 (code bug): the global-center-of-mass rebuild raises the
"one frame only" error on a payload with a single time sample, because its
guard (src/bioviz/biorbd_vtk.py:483) tests the channel count instead of
the time-sample count; the dispatching update call with this payload
therefore also raises, although the claim says a single-frame payload must
never raise regardless of its channel count. -/
theorem global_com_rebuild_channel_check :
    newGlobalComSet scene0 initGlobalComState comFrameTwo = .error .invalidFrame ∧
    updateGlobalCom scene0 initGlobalComState comFrameTwo = .error .invalidFrame ∧
    comFrameTwo.timeSize = 1 ∧
    comFrameTwo.points.length = 2 := by
  refine ⟨by decide, by decide, rfl, rfl⟩

/-- The static three-axis actor built by `create_global_ref_frame`:
its 4 polydata points and its line width. The fixed 3-line topology and
RGB segment colors are the same for every such actor. -/
structure GrfActor where
  pts : List Vec3
  lineWidth : ℚ
deriving DecidableEq

/-- The global-reference-frame slice of `VtkModel` state: the one-time
creation flag and the configured axis length and width. -/
structure GrfState where
  has_global_ref_frame : Bool
  global_ref_frame_length : ℚ
  global_ref_frame_width : ℚ
deriving DecidableEq

/-- `VtkModel.create_global_ref_frame` (src/bioviz/biorbd_vtk.py:1149-1216):
raise if the frame was already created (before touching anything), else set
the flag, build the static axes actor from the configured length/width, add
it to the renderer and reset the camera once. Returns the renderer
counters, the new state and the created actor. -/
def createGlobalRefFrame (w : Scene) (s : GrfState) : Except Err (Scene × GrfState × GrfActor) :=
  if s.has_global_ref_frame then .error .duplicateInit
  else
    .ok ({ w with addCount := w.addCount + 1, resetCount := w.resetCount + 1 },
         { s with has_global_ref_frame := true },
         { pts := [((0:ℚ), 0, 0), (s.global_ref_frame_length, 0, 0),
                   (0, s.global_ref_frame_length, 0), (0, 0, s.global_ref_frame_length)],
           lineWidth := s.global_ref_frame_width })

/-- C6: creating the global reference frame succeeds the first time, adding
exactly one actor to the renderer (and removing none), and any second
creation attempt on the resulting state raises the duplicate-initialization
error; the erroring call returns before performing any renderer or state
mutation, so all other actors are unaffected. -/
theorem create_global_ref_frame_once (w : Scene) (s : GrfState)
    (h : s.has_global_ref_frame = false) :
    createGlobalRefFrame w s =
      .ok ({ w with addCount := w.addCount + 1, resetCount := w.resetCount + 1 },
           { s with has_global_ref_frame := true },
           { pts := [((0:ℚ), 0, 0), (s.global_ref_frame_length, 0, 0),
                     (0, s.global_ref_frame_length, 0), (0, 0, s.global_ref_frame_length)],
             lineWidth := s.global_ref_frame_width }) ∧
    createGlobalRefFrame
      { w with addCount := w.addCount + 1, resetCount := w.resetCount + 1 }
      { s with has_global_ref_frame := true } = .error .duplicateInit := by
  constructor
  · rw [createGlobalRefFrame, if_neg (by simp [h])]
  · rw [createGlobalRefFrame, if_pos rfl]

/-- The rational 3/20 in lowest terms (see `qGrfLength_eq`). -/
def qGrfLength : ℚ := ⟨3, 20, by decide, by norm_num [Nat.Coprime]⟩

/-- Sanity check: `qGrfLength` is the source's `global_ref_frame_length=0.15`. -/
theorem qGrfLength_eq : qGrfLength = 3 / 20 := by
  rw [qGrfLength]
  norm_num [Rat.mk'_eq_divInt, Rat.divInt_eq_div]

/-- The global-reference-frame slice of `VtkModel.__init__` with the default
constructor arguments (`global_ref_frame_length=0.15`,
`global_ref_frame_width=5`, frame not yet created). -/
def initGrfState : GrfState :=
  { has_global_ref_frame := false, global_ref_frame_length := qGrfLength,
    global_ref_frame_width := 5 }

/-- Witness for `create_global_ref_frame_once`: the default configuration
with the flag still unset. -/
theorem create_global_ref_frame_once_witness :
    initGrfState.has_global_ref_frame = false ∧
    (createGlobalRefFrame scene0 initGrfState =
      .ok ({ scene0 with addCount := scene0.addCount + 1, resetCount := scene0.resetCount + 1 },
           { initGrfState with has_global_ref_frame := true },
           { pts := [((0:ℚ), 0, 0), (initGrfState.global_ref_frame_length, 0, 0),
                     (0, initGrfState.global_ref_frame_length, 0),
                     (0, 0, initGrfState.global_ref_frame_length)],
             lineWidth := initGrfState.global_ref_frame_width }) ∧
     createGlobalRefFrame
        { scene0 with addCount := scene0.addCount + 1, resetCount := scene0.resetCount + 1 }
        { initGrfState with has_global_ref_frame := true } = .error .duplicateInit) :=
  ⟨rfl, create_global_ref_frame_once scene0 initGrfState rfl⟩

/-- The names of every method defined in class `VtkModel`
(src/bioviz/biorbd_vtk.py:143-1216), transcribed in source order. Python
resolves `self.<name>` against this set at call time; a name outside it
raises `AttributeError`. -/
def vtkModelMethodNames : List String :=
  ["__init__",
   "set_markers_color", "set_markers_size", "set_markers_opacity",
   "new_marker_set", "update_markers",
   "set_contacts_color", "set_contacts_size", "set_contacts_opacity",
   "new_contact_set", "update_contacts",
   "set_global_center_of_mass_color", "set_global_center_of_mass_size",
   "set_global_center_of_mass_opacity",
   "new_global_center_of_mass_set", "update_global_center_of_mass",
   "set_segments_center_of_mass_color", "set_segments_center_of_mass_size",
   "set_segments_center_of_mass_opacity",
   "new_segments_center_of_mass_set", "update_segments_center_of_mass",
   "set_mesh_color", "set_mesh_opacity", "new_mesh_set", "update_mesh",
   "set_muscle_color", "set_muscle_opacity", "new_muscle_set", "update_muscle",
   "set_wrapping_color", "set_wrapping_opacity", "new_wrapping_set", "update_wrapping",
   "new_rt_set", "update_rt",
   "create_global_ref_frame"]

/-- The muscle style fields of `VtkModel`. -/
structure MuscleStyle where
  muscle_color : Color
deriving DecidableEq

/-- `VtkModel.set_muscle_color` (src/bioviz/biorbd_vtk.py:779-788): store
the new color, then call `self.update_muscles(self.all_muscles)`. The
attribute lookup is modelled against `vtkModelMethodNames`: the body names
`update_muscles`, so the call raises `AttributeError` after the color has
already been stored. The first component is the muscle style state after
the call (mutations before the raise persist in Python). -/
def setMuscleColorCall (s : MuscleStyle) (c : Color) : MuscleStyle × Except Err Unit :=
  let s1 : MuscleStyle := { s with muscle_color := c }
  if vtkModelMethodNames.contains "update_muscles" then (s1, .ok ())
  else (s1, .error .attributeError)

/-- C5 (code bug): `set_muscle_color` never succeeds — its body calls
`self.update_muscles`, but the class only defines `update_muscle`, so the
call raises `AttributeError` (after storing the color) instead of
re-running the muscle update as the claim requires of every style setter. -/
theorem set_muscle_color_attribute_error :
    vtkModelMethodNames.contains "update_muscles" = false ∧
    vtkModelMethodNames.contains "update_muscle" = true ∧
    (setMuscleColorCall { muscle_color := (0, 0, 0) } (1, 0, 0)).2 = .error .attributeError ∧
    (setMuscleColorCall { muscle_color := (0, 0, 0) } (1, 0, 0)).1.muscle_color = (1, 0, 0) := by
  refine ⟨by decide, by decide, by decide, by decide⟩

/-- A `Mesh` payload (`bioviz.mesh.Mesh`): one time sample flag, one 3D
point per channel, and the triangle table `mesh.triangles`, a numpy array
stored row-major (`tRows` lists its rows; `tNcols` is
`mesh.triangles.shape[1]`, the number of triangle columns). Each row of a
well-formed table has `tNcols` entries. -/
structure Mesh where
  timeSize : Nat
  points : List Vec3
  tRows : List (List Int)
  tNcols : Nat
deriving DecidableEq

/-- Default mesh used only as the `getD` fallback. -/
def meshDefault : Mesh := { timeSize := 0, points := [], tRows := [], tNcols := 0 }

/-- The first column `mesh.triangles[:, 0]` of the triangle table: the
first entry of each row. -/
def firstTriCol (m : Mesh) : List Int := m.tRows.map fun row => row.getD 0 0

/-- The branch condition of `new_mesh_set` (src/bioviz/biorbd_vtk.py:689):
`mesh.triangles.shape[1]==0 or len(np.unique(mesh.triangles[:,0]))`.
The second disjunct is the Python truthiness of the integer
`len(np.unique(...))` — the number of distinct values in the first
triangle column — which is true exactly when that count is nonzero. -/
def meshOutlineBranch (m : Mesh) : Bool :=
  m.tNcols == 0 || (firstTriCol m).dedup.length != 0

/-- Modelled from the spec: "if the sub-entity's topology (triangle table)
is degenerate (zero triangles, or a triangle table whose first row is
constant ...)". A constant first row is one with exactly one distinct
value. This definition follows the spec's words, for comparison with the
source's `meshOutlineBranch`. -/
def specDegenerateTriangles (m : Mesh) : Bool :=
  m.tNcols == 0 || (m.tRows.headD []).dedup.length == 1

/-- The closed polylines built by the outline branch of `new_mesh_set`
(and, identically, by `new_muscle_set` and `new_wrapping_set`): for each
triangle column, its row entries followed by the first row's entry again
("Close the triangle", src/bioviz/biorbd_vtk.py:691-698). Exact for the
canonical 3-row triangle table, for which the `vtkPolyLine` is sized to
4 point ids. -/
def outlineCells (m : Mesh) : List (List Int) :=
  (List.range m.tNcols).map fun j =>
    (m.tRows.map fun row => row.getD j 0) ++ [(m.tRows.headD []).getD j 0]

/-- The polygons built by the surface branch of `new_mesh_set`: one cell
per triangle column holding that column's row entries
(src/bioviz/biorbd_vtk.py:709-724). -/
def surfaceCells (m : Mesh) : List (List Int) :=
  (List.range m.tNcols).map fun j => m.tRows.map fun row => row.getD j 0

/-- The topology class built for a mesh actor at rebuild time. -/
inductive MeshTopo where
  | outline (cells : List (List Int))
  | surface (cells : List (List Int))
deriving DecidableEq

/-- Whether a topology is the polyline outline class. -/
def MeshTopo.isOutline : MeshTopo → Bool
  | .outline _ => true
  | .surface _ => false

/-- A mesh `vtkActor`: its topology class and cells, the property color and
opacity applied at rebuild, and its current point coordinates. -/
structure MeshActor where
  topo : MeshTopo
  color : Color
  opacity : ℚ
  points : List Vec3
deriving DecidableEq

/-- Default mesh actor used only as the `getD` fallback. -/
def meshActorDefault : MeshActor :=
  { topo := .outline [], color := (0, 0, 0), opacity := 0, points := [] }

/-- The mesh slice of `VtkModel` state. -/
structure MeshState where
  all_meshes : List Mesh
  mesh_color : Color
  mesh_opacity : ℚ
  actors : List MeshActor
deriving DecidableEq

/-- Result of an `update_mesh`/`new_mesh_set` call. -/
structure MeshResult where
  scene : Scene
  state : MeshState
  passes : Nat
  rebuilds : Nat
deriving DecidableEq

/-- One iteration of `new_mesh_set`'s creation loop
(src/bioviz/biorbd_vtk.py:680-737): check the one-frame guard, build the
point set from the mesh data, choose the topology branch — the outline
branch additionally overwrites `self.mesh_color` with (0, 0, 0) (line 706)
— then create the actor with the CURRENT `self.mesh_color` and
`self.mesh_opacity`, add it to the renderer and reset the camera. -/
def meshBuildStep (w : Scene) (s : MeshState) (m : Mesh) : Except Err (Scene × MeshState) :=
  if m.timeSize ≠ 1 then .error .invalidFrame
  else
    let colorNow : Color := if meshOutlineBranch m then ((0:ℚ), 0, 0) else s.mesh_color
    let topo : MeshTopo :=
      if meshOutlineBranch m then .outline (outlineCells m) else .surface (surfaceCells m)
    let actor : MeshActor :=
      { topo := topo, color := colorNow, opacity := s.mesh_opacity, points := m.points }
    .ok ({ w with addCount := w.addCount + 1, resetCount := w.resetCount + 1 },
         { s with mesh_color := colorNow, actors := s.actors ++ [actor] })

/-- The whole creation loop of `new_mesh_set`, over the pushed mesh list. -/
def meshBuildLoop : Scene → MeshState → List Mesh → Except Err (Scene × MeshState)
  | w, s, [] => .ok (w, s)
  | w, s, m :: rest =>
    match meshBuildStep w s m with
    | .error e => .error e
    | .ok (w1, s1) => meshBuildLoop w1 s1 rest

/-- The dispatch loop at the top of `update_mesh`
(src/bioviz/biorbd_vtk.py:756-762): walk the pushed list with its index;
raise on a multi-time-sample mesh; report a rebuild as soon as the stored
list is too short or a channel count differs. -/
def meshScan (stored : List Mesh) : List Mesh → Nat → Except Err Bool
  | [], _ => .ok false
  | m :: rest, i =>
    if m.timeSize ≠ 1 then .error .invalidFrame
    else if stored.length ≤ i then .ok true
    else if m.points.length ≠ (stored.getD i meshDefault).points.length then .ok true
    else meshScan stored rest (i + 1)

/-- The fast-path loop of `update_mesh`
(src/bioviz/biorbd_vtk.py:769-777): reposition the points of the actor at
each mesh index; indexing past the end of the actor list is an index
error; actors beyond the mesh list are untouched. -/
def meshFastActors : List Mesh → List MeshActor → Except Err (List MeshActor)
  | [], acts => .ok acts
  | m :: rest, acts =>
    match acts with
    | [] => .error .indexErr
    | a :: arest =>
      (meshFastActors rest arest).map fun tail => ({ a with points := m.points }) :: tail

mutual

/-- `VtkModel.update_mesh` (src/bioviz/biorbd_vtk.py:742-777) on a list
input (the single-`Mesh` duck-typing branch wraps the argument in a
one-element list first; the later `isinstance(…, list)` guard is then
unreachable): scan for the rebuild condition, then either rebuild or store
the list and run the fast-path repositioning pass. -/
def updateMeshF : Nat → Scene → MeshState → List Mesh → Except Err MeshResult
  | 0, _, _, _ => .error .outOfFuel
  | n + 1, w, s, ms =>
    match meshScan s.all_meshes ms 0 with
    | .error e => .error e
    | .ok true => newMeshSetF n w s ms
    | .ok false =>
      let s1 : MeshState := { s with all_meshes := ms }
      (meshFastActors ms s1.actors).map fun acts =>
        { scene := w, state := { s1 with actors := acts }, passes := 1, rebuilds := 0 }

/-- `VtkModel.new_mesh_set` (src/bioviz/biorbd_vtk.py:656-740) on a list
input: store the list, remove every previous mesh actor, run the creation
loop, and end with `update_mesh` on the stored list. -/
def newMeshSetF : Nat → Scene → MeshState → List Mesh → Except Err MeshResult
  | 0, _, _, _ => .error .outOfFuel
  | n + 1, w, s, ms =>
    let s1 : MeshState := { s with all_meshes := ms }
    let w1 : Scene := { w with removeCount := w.removeCount + s1.actors.length }
    let s2 : MeshState := { s1 with actors := [] }
    match meshBuildLoop w1 s2 ms with
    | .error e => .error e
    | .ok (w2, s3) => (updateMeshF n w2 s3 ms).map fun r => { r with rebuilds := r.rebuilds + 1 }

end

/-- `update_mesh` with adequate fuel. -/
def updateMesh (w : Scene) (s : MeshState) (ms : List Mesh) : Except Err MeshResult :=
  updateMeshF 3 w s ms

/-- `new_mesh_set` with adequate fuel. -/
def newMeshSet (w : Scene) (s : MeshState) (ms : List Mesh) : Except Err MeshResult :=
  newMeshSetF 2 w s ms

/-- What one successful creation loop of `new_mesh_set` does: it validates
every mesh's one-frame guard, never touches the stored list or the
opacity, blackens the stored mesh color exactly when some mesh takes the
outline branch, adds and camera-resets once per mesh, removes nothing, and
appends one actor per mesh whose topology class follows `meshOutlineBranch`
positionally; when the stored color was already black, every appended
actor is black. -/
theorem meshBuildLoop_spec :
    ∀ (ms : List Mesh) (w : Scene) (s : MeshState) (w' : Scene) (s' : MeshState),
      meshBuildLoop w s ms = .ok (w', s') →
      (∀ m ∈ ms, m.timeSize = 1) ∧
      s'.all_meshes = s.all_meshes ∧
      s'.mesh_opacity = s.mesh_opacity ∧
      s'.mesh_color = (if ms.any meshOutlineBranch then ((0:ℚ), 0, 0) else s.mesh_color) ∧
      w'.addCount = w.addCount + ms.length ∧
      w'.resetCount = w.resetCount + ms.length ∧
      w'.removeCount = w.removeCount ∧
      ∃ L : List MeshActor,
        s'.actors = s.actors ++ L ∧
        L.length = ms.length ∧
        (∀ i, i < ms.length →
          (L.getD i meshActorDefault).topo.isOutline =
            meshOutlineBranch (ms.getD i meshDefault)) ∧
        (s.mesh_color = ((0:ℚ), 0, 0) → ∀ a ∈ L, a.color = ((0:ℚ), 0, 0)) := by
  intro ms
  induction ms with
  | nil =>
    intro w s w' s' h
    simp only [meshBuildLoop] at h
    cases h
    exact ⟨by simp, rfl, rfl, by simp, by simp, by simp, rfl,
      [], by simp, rfl, fun i hi => absurd hi (by simp),
      fun _ a ha => absurd ha (List.not_mem_nil a)⟩
  | cons m rest ih =>
    intro w s w' s' h
    by_cases hts : m.timeSize ≠ 1
    · simp only [meshBuildLoop, meshBuildStep, if_pos hts] at h
      cases h
    · simp only [meshBuildLoop, meshBuildStep, if_neg hts] at h
      obtain ⟨htimes, hmesh, hop, hcolor, hadd, hreset, hrem, L', hacts, hlen, htopo, hcolors⟩ :=
        ih _ _ _ _ h
      refine ⟨?_, by simpa using hmesh, by simpa using hop, ?_, by simp at hadd ⊢; omega,
        by simp at hreset ⊢; omega, by simpa using hrem,
        (if meshOutlineBranch m then
          ({ topo := .outline (outlineCells m), color := ((0:ℚ), 0, 0),
             opacity := s.mesh_opacity, points := m.points } : MeshActor)
         else
          { topo := .surface (surfaceCells m), color := s.mesh_color,
            opacity := s.mesh_opacity, points := m.points }) :: L', ?_, by simpa using hlen,
        ?_, ?_⟩
      · intro m' hm'
        rcases List.mem_cons.mp hm' with hm' | hm'
        · subst hm'
          omega
        · exact htimes m' hm'
      · rw [hcolor]
        cases hbm : meshOutlineBranch m <;> cases hra : rest.any meshOutlineBranch <;>
          simp [List.any_cons, hbm, hra]
      · rw [hacts]
        cases hbm : meshOutlineBranch m <;> simp [hbm]
      · intro i hi
        cases i with
        | zero =>
          cases hbm : meshOutlineBranch m <;>
            simp [List.getD_cons_zero, hbm, MeshTopo.isOutline]
        | succ i =>
          simp only [List.getD_cons_succ]
          exact htopo i (by simpa using hi)
      · intro hblack a ha
        rcases List.mem_cons.mp ha with ha | ha
        · subst ha
          cases hbm : meshOutlineBranch m <;> simp [hbm, hblack]
        · refine hcolors ?_ a ha
          cases hbm : meshOutlineBranch m <;> simp [hbm, hblack]

/-- Scanning a list against itself (from any position) finds no rebuild
condition when every mesh passes the one-frame guard. -/
theorem meshScan_self :
    ∀ (suf pre : List Mesh), (∀ m ∈ suf, m.timeSize = 1) →
      meshScan (pre ++ suf) suf pre.length = .ok false := by
  intro suf
  induction suf with
  | nil =>
    intro pre h
    simp [meshScan]
  | cons m rest ih =>
    intro pre h
    have ht : m.timeSize = 1 := h m (List.mem_cons_self m rest)
    have hsd : (pre ++ m :: rest).getD pre.length meshDefault = m := by
      rw [List.getD_eq_getElem?_getD, List.getElem?_append_right (Nat.le_refl pre.length)]
      simp
    simp only [meshScan, ht]
    rw [if_neg (by simp), if_neg (by simp), if_neg (by rw [hsd]; simp)]
    have := ih (pre ++ [m]) (fun m' hm' => h m' (List.mem_cons_of_mem m hm'))
    simpa using this

/-- A successful fast-path repositioning pass keeps the actor count and,
pointwise, every actor's topology, color and opacity; each produced actor
is an existing actor with only its points replaced. -/
theorem meshFastActors_spec :
    ∀ (ms : List Mesh) (acts : List MeshActor), ms.length ≤ acts.length →
      ∃ acts', meshFastActors ms acts = .ok acts' ∧
        acts'.length = acts.length ∧
        (∀ i, (acts'.getD i meshActorDefault).topo = (acts.getD i meshActorDefault).topo ∧
          (acts'.getD i meshActorDefault).color = (acts.getD i meshActorDefault).color ∧
          (acts'.getD i meshActorDefault).opacity = (acts.getD i meshActorDefault).opacity) ∧
        (∀ a' ∈ acts', ∃ a ∈ acts, a'.topo = a.topo ∧ a'.color = a.color ∧
          a'.opacity = a.opacity) := by
  intro ms
  induction ms with
  | nil =>
    intro acts _
    exact ⟨acts, rfl, rfl, fun i => ⟨rfl, rfl, rfl⟩, fun a' ha' => ⟨a', ha', rfl, rfl, rfl⟩⟩
  | cons m rest ih =>
    intro acts hle
    cases acts with
    | nil => simp at hle
    | cons a arest =>
      obtain ⟨tail, htail, hlen, hpt, hmem⟩ := ih arest (by simpa using hle)
      refine ⟨({ a with points := m.points }) :: tail, ?_, by simpa using hlen, ?_, ?_⟩
      · simp only [meshFastActors, htail, Except.map]
      · intro i
        cases i with
        | zero => exact ⟨rfl, rfl, rfl⟩
        | succ i => simpa only [List.getD_cons_succ] using hpt i
      · intro a' ha'
        rcases List.mem_cons.mp ha' with ha' | ha'
        · exact ⟨a, List.mem_cons_self a arest, by simp [ha'], by simp [ha'], by simp [ha']⟩
        · obtain ⟨b, hb, hprops⟩ := hmem a' ha'
          exact ⟨b, List.mem_cons_of_mem a hb, hprops⟩

/-- What a successful `new_mesh_set` call does: one actor per pushed mesh,
the list stored, the stored mesh color blackened exactly when some mesh
takes the outline branch, one `AddActor` and one `ResetCamera` per mesh,
one `RemoveActor` per previous actor; the actor at each index has the
topology class that `meshOutlineBranch` assigns to the mesh at that index;
and when the stored color was already black, every resulting actor is
black. -/
theorem newMeshSet_spec (w : Scene) (s : MeshState) (ms : List Mesh) (r : MeshResult)
    (h : newMeshSet w s ms = .ok r) :
    r.state.actors.length = ms.length ∧
    r.state.all_meshes = ms ∧
    r.state.mesh_color = (if ms.any meshOutlineBranch then ((0:ℚ), 0, 0) else s.mesh_color) ∧
    r.scene.addCount = w.addCount + ms.length ∧
    r.scene.resetCount = w.resetCount + ms.length ∧
    r.scene.removeCount = w.removeCount + s.actors.length ∧
    (∀ i, i < ms.length →
      (r.state.actors.getD i meshActorDefault).topo.isOutline =
        meshOutlineBranch (ms.getD i meshDefault)) ∧
    (s.mesh_color = ((0:ℚ), 0, 0) → ∀ a ∈ r.state.actors, a.color = ((0:ℚ), 0, 0)) := by
  rw [show newMeshSet w s ms = newMeshSetF (1 + 1) w s ms from rfl] at h
  simp only [newMeshSetF] at h
  cases hb : meshBuildLoop { w with removeCount := w.removeCount + s.actors.length }
      { all_meshes := ms, mesh_color := s.mesh_color, mesh_opacity := s.mesh_opacity,
        actors := [] } ms with
  | error e =>
    rw [show ({ s with all_meshes := ms, actors := [] } : MeshState) =
      { all_meshes := ms, mesh_color := s.mesh_color, mesh_opacity := s.mesh_opacity,
        actors := [] } from rfl] at h
    rw [hb] at h
    cases h
  | ok pr =>
    obtain ⟨w2, s3⟩ := pr
    rw [show ({ s with all_meshes := ms, actors := [] } : MeshState) =
      { all_meshes := ms, mesh_color := s.mesh_color, mesh_opacity := s.mesh_opacity,
        actors := [] } from rfl] at h
    rw [hb] at h
    obtain ⟨htimes, hmesh, hop, hcolor, hadd, hreset, hrem, L, hacts, hlen, htopo, hcolors⟩ :=
      meshBuildLoop_spec ms _ _ _ _ hb
    simp only [updateMeshF, hmesh] at h
    rw [show meshScan ms ms 0 = meshScan ([] ++ ms) ms (List.length []) from rfl,
      meshScan_self ms [] htimes] at h
    obtain ⟨acts', hfast, hflen, hfpt, hfmem⟩ :=
      meshFastActors_spec ms s3.actors (by simp [hacts, hlen])
    rw [hfast] at h
    simp only [Except.map] at h
    cases h
    simp only [hacts] at hflen hfpt hfmem
    refine ⟨by simp [hflen, hlen], rfl, by simpa using hcolor, by simpa using hadd,
      by simpa using hreset, by simpa using hrem, ?_, ?_⟩
    · intro i hi
      have h1 := (hfpt i).1
      simp only [List.nil_append] at h1 hflen
      rw [h1]
      have := htopo i hi
      simpa using this
    · intro hblack a ha
      obtain ⟨b, hb2, hp⟩ := hfmem a ha
      simp only [List.nil_append] at hb2
      rw [hp.2.1]
      exact hcolors (by simpa using hblack) b hb2

/-- A successful fast-path repositioning pass never changes the actor
count: the loop runs over the pushed meshes and leaves trailing actors in
place. -/
theorem meshFastActors_length :
    ∀ (ms : List Mesh) (acts acts' : List MeshActor),
      meshFastActors ms acts = .ok acts' → acts'.length = acts.length := by
  intro ms
  induction ms with
  | nil =>
    intro acts acts' h
    simp only [meshFastActors] at h
    cases h
    rfl
  | cons m rest ih =>
    intro acts acts' h
    cases acts with
    | nil =>
      simp only [meshFastActors] at h
      cases h
    | cons a arest =>
      simp only [meshFastActors] at h
      cases hm : meshFastActors rest arest with
      | error e =>
        rw [hm] at h
        simp only [Except.map] at h
        cases h
      | ok tail =>
        rw [hm] at h
        simp only [Except.map] at h
        cases h
        simp [ih arest tail hm]

/-- Every successful `new_mesh_set` call performs exactly one rebuild and
exactly one fast-path update pass (the closing `update_mesh` call always
takes the fast path against the list just stored). -/
theorem newMeshSet_counts (w : Scene) (s : MeshState) (ms : List Mesh) (r : MeshResult)
    (h : newMeshSet w s ms = .ok r) : r.passes = 1 ∧ r.rebuilds = 1 := by
  rw [show newMeshSet w s ms = newMeshSetF (1 + 1) w s ms from rfl] at h
  simp only [newMeshSetF] at h
  cases hb : meshBuildLoop { w with removeCount := w.removeCount + s.actors.length }
      { all_meshes := ms, mesh_color := s.mesh_color, mesh_opacity := s.mesh_opacity,
        actors := [] } ms with
  | error e =>
    rw [show ({ s with all_meshes := ms, actors := [] } : MeshState) =
      { all_meshes := ms, mesh_color := s.mesh_color, mesh_opacity := s.mesh_opacity,
        actors := [] } from rfl] at h
    rw [hb] at h
    cases h
  | ok pr =>
    obtain ⟨w2, s3⟩ := pr
    rw [show ({ s with all_meshes := ms, actors := [] } : MeshState) =
      { all_meshes := ms, mesh_color := s.mesh_color, mesh_opacity := s.mesh_opacity,
        actors := [] } from rfl] at h
    rw [hb] at h
    obtain ⟨htimes, hmesh, _, _, _, _, _, _, _, _, _, _⟩ := meshBuildLoop_spec ms _ _ _ _ hb
    simp only [updateMeshF, hmesh] at h
    rw [show meshScan ms ms 0 = meshScan ([] ++ ms) ms (List.length []) from rfl,
      meshScan_self ms [] htimes] at h
    cases hf : meshFastActors ms s3.actors with
    | error e =>
      rw [hf] at h
      simp only [Except.map] at h
      cases h
    | ok acts' =>
      rw [hf] at h
      simp only [Except.map] at h
      cases h
      exact ⟨rfl, rfl⟩

/-- The source's default mesh color `mesh_color=(0.89, 0.855, 0.788)`, in
lowest terms (see `qMeshColor_eq`). -/
def qMeshColor : Color :=
  (⟨89, 100, by decide, by norm_num [Nat.Coprime]⟩,
   ⟨171, 200, by decide, by norm_num [Nat.Coprime]⟩,
   ⟨197, 250, by decide, by norm_num [Nat.Coprime]⟩)

/-- Sanity check: `qMeshColor` is (0.89, 0.855, 0.788). -/
theorem qMeshColor_eq : qMeshColor = (89 / 100, 171 / 200, 197 / 250) := by
  rw [qMeshColor]
  refine Prod.ext ?_ (Prod.ext ?_ ?_) <;> norm_num [Rat.mk'_eq_divInt, Rat.divInt_eq_div]

/-- The source's default mesh opacity `mesh_opacity=0.8`, in lowest terms
(see `qMeshOpacity_eq`). -/
def qMeshOpacity : ℚ := ⟨4, 5, by decide, by norm_num [Nat.Coprime]⟩

/-- Sanity check: `qMeshOpacity` is 0.8. -/
theorem qMeshOpacity_eq : qMeshOpacity = 4 / 5 := by
  rw [qMeshOpacity]
  norm_num [Rat.mk'_eq_divInt, Rat.divInt_eq_div]

/-- The mesh slice of `VtkModel.__init__` with the default constructor
arguments: no meshes, `mesh_color=(0.89, 0.855, 0.788)`,
`mesh_opacity=0.8`, no actors. -/
def initMeshState : MeshState :=
  { all_meshes := [], mesh_color := qMeshColor, mesh_opacity := qMeshOpacity, actors := [] }

/-- A single-frame mesh with 4 vertices and a 3-row, 2-column triangle
table whose first row (0, 1) is not constant: a well-formed triangulated
surface. -/
def meshEx : Mesh :=
  { timeSize := 1, points := [(0, 0, 0), (1, 0, 0), (0, 1, 0), (1, 1, 0)],
    tRows := [[0, 1], [1, 2], [2, 3]], tNcols := 2 }

/-- The result of rebuilding the fresh mesh category with `[meshEx]`: one
actor carrying the outline topology (each triangle closed into a
polyline), the stored mesh color overwritten with black, and the actor
colored black. -/
def meshResultEx : MeshResult :=
  { scene := { addCount := 1, removeCount := 0, resetCount := 1 },
    state := { all_meshes := [meshEx], mesh_color := (0, 0, 0), mesh_opacity := qMeshOpacity,
               actors := [{ topo := .outline [[0, 1, 2, 0], [1, 2, 3, 1]], color := (0, 0, 0),
                            opacity := qMeshOpacity, points := meshEx.points }] },
    passes := 1, rebuilds := 1 }

/-- C3 counterexample: `meshEx` has two triangles and a non-constant first
row, so under the claim the rebuild must build the triangulated-surface
topology for it; but the branch condition of line 689 uses the bare
integer `len(np.unique(mesh.triangles[:,0]))` as a boolean, which is true
for every table with at least one row, so the rebuild builds the outline
topology instead. -/
theorem mesh_branch_heuristic_counterexample :
    specDegenerateTriangles meshEx = false ∧
    meshOutlineBranch meshEx = true ∧
    ((newMeshSet scene0 initMeshState [meshEx]).map
      fun r => r.state.actors.map fun a => a.topo.isOutline) = .ok [true] :=
  ⟨by decide, by decide, by decide⟩

/-- C3 amended: the mesh rebuild builds the closed-loop outline topology
for a sub-entity exactly when its triangle table has zero columns or at
least one row (the truthy `len(np.unique(...))` makes the first-column
test succeed whenever the column is nonempty), and the triangulated
surface only in the remaining case (no rows but at least one column);
positionally, each built actor's topology class follows this condition. -/
theorem mesh_outline_branch_condition :
    (∀ m : Mesh, meshOutlineBranch m = true ↔ (m.tNcols = 0 ∨ m.tRows ≠ [])) ∧
    (∀ w s ms r, newMeshSet w s ms = .ok r →
      r.state.actors.length = ms.length ∧
      ∀ i, i < ms.length →
        (r.state.actors.getD i meshActorDefault).topo.isOutline =
          meshOutlineBranch (ms.getD i meshDefault)) := by
  constructor
  · intro m
    simp [meshOutlineBranch, firstTriCol, List.length_eq_zero, List.dedup_eq_nil]
  · intro w s ms r h
    obtain ⟨h1, _, _, _, _, _, h7, _⟩ := newMeshSet_spec w s ms r h
    exact ⟨h1, h7⟩

/-- Witness for `mesh_outline_branch_condition`: the concrete rebuild of
`[meshEx]`, checked by evaluation. -/
theorem mesh_outline_branch_condition_witness :
    newMeshSet scene0 initMeshState [meshEx] = .ok meshResultEx ∧
    (meshResultEx.state.actors.length = [meshEx].length ∧
     ∀ i, i < [meshEx].length →
       (meshResultEx.state.actors.getD i meshActorDefault).topo.isOutline =
         meshOutlineBranch ([meshEx].getD i meshDefault)) :=
  ⟨by decide, mesh_outline_branch_condition.2 scene0 initMeshState [meshEx] meshResultEx
    (by decide)⟩

/-- C7 counterexample: rebuilding the fresh marker category with a
two-channel frame sends the renderer two `ResetCamera` calls — the reset
happens inside the per-actor creation loop (line 307), not once per
rebuild as the claim states. -/
theorem rebuild_camera_reset_counterexample :
    ((newMarkerSet scene0 initMarkersState { timeSize := 1, points := [(1, 0, 0), (2, 0, 0)] }).map
      fun r => r.scene.resetCount) = .ok 2 ∧ (2 : Nat) ≠ 1 :=
  ⟨by decide, by decide⟩

/-- C7 amended: after a successful rebuild the actor count equals the new
frame's channel count (sub-entity count for meshes), and the renderer
receives one camera-reset request per actor created — channel-count many
per rebuild call — rather than exactly one per rebuild call. -/
theorem rebuild_camera_reset_per_actor :
    (∀ w s f r, newMarkerSet w s f = .ok r →
      r.state.actors.length = f.points.length ∧
      r.scene.resetCount = w.resetCount + f.points.length ∧
      r.scene.addCount = w.addCount + f.points.length) ∧
    (∀ w s ms r, newMeshSet w s ms = .ok r →
      r.state.actors.length = ms.length ∧
      r.scene.resetCount = w.resetCount + ms.length) := by
  constructor
  · intro w s f r h
    by_cases ht : f.timeSize = 1
    · rw [newMarkerSet_eq w s f ht] at h
      cases h
      exact ⟨by simp, rfl, rfl⟩
    · rw [show newMarkerSet w s f = newMarkerSetF (1 + 1) w s f from rfl] at h
      simp [newMarkerSetF, ht] at h
  · intro w s ms r h
    obtain ⟨h1, _, _, _, h5, _, _, _⟩ := newMeshSet_spec w s ms r h
    exact ⟨h1, h5⟩

/-- Witness for `rebuild_camera_reset_per_actor`: concrete marker and mesh
rebuilds, checked by evaluation. -/
theorem rebuild_camera_reset_per_actor_witness :
    newMarkerSet scene0 initMarkersState frameOnePoint = .ok markersResultOne ∧
    (markersResultOne.state.actors.length = frameOnePoint.points.length ∧
     markersResultOne.scene.resetCount = scene0.resetCount + frameOnePoint.points.length ∧
     markersResultOne.scene.addCount = scene0.addCount + frameOnePoint.points.length) ∧
    newMeshSet scene0 initMeshState [meshEx] = .ok meshResultEx ∧
    (meshResultEx.state.actors.length = [meshEx].length ∧
     meshResultEx.scene.resetCount = scene0.resetCount + [meshEx].length) :=
  ⟨by decide,
   rebuild_camera_reset_per_actor.1 scene0 initMarkersState frameOnePoint markersResultOne
     (by decide),
   by decide,
   rebuild_camera_reset_per_actor.2 scene0 initMeshState [meshEx] meshResultEx (by decide)⟩

/-- C10: whenever a successful mesh rebuild takes the outline branch for
any mesh in the pushed list, the model's stored `mesh_color` is
overwritten with black (0, 0, 0); from then on (absent a `set_mesh_color`
call) every later mesh rebuild both keeps the stored color black and
paints all of its actors black, whatever meshes are pushed. -/
theorem mesh_outline_blackens_mesh_color (w : Scene) (s : MeshState) (ms : List Mesh)
    (r : MeshResult) (h : newMeshSet w s ms = .ok r)
    (hex : ms.any meshOutlineBranch = true) :
    r.state.mesh_color = ((0:ℚ), 0, 0) ∧
    ∀ w2 ms2 r2, newMeshSet w2 r.state ms2 = .ok r2 →
      r2.state.mesh_color = ((0:ℚ), 0, 0) ∧ ∀ a ∈ r2.state.actors, a.color = ((0:ℚ), 0, 0) := by
  obtain ⟨_, _, hcol, _, _, _, _, _⟩ := newMeshSet_spec w s ms r h
  have hblack : r.state.mesh_color = ((0:ℚ), 0, 0) := by rw [hcol, if_pos hex]
  refine ⟨hblack, ?_⟩
  intro w2 ms2 r2 h2
  obtain ⟨_, _, hcol2, _, _, _, _, hacts2⟩ := newMeshSet_spec w2 r.state ms2 r2 h2
  constructor
  · rw [hcol2]
    cases hany : ms2.any meshOutlineBranch <;> simp [hblack]
  · exact hacts2 hblack

/-- Witness for `mesh_outline_blackens_mesh_color`: the concrete first
rebuild of `[meshEx]` (whose triangle table takes the outline branch),
checked by evaluation. -/
theorem mesh_outline_blackens_mesh_color_witness :
    newMeshSet scene0 initMeshState [meshEx] = .ok meshResultEx ∧
    [meshEx].any meshOutlineBranch = true ∧
    (meshResultEx.state.mesh_color = ((0:ℚ), 0, 0) ∧
     ∀ w2 ms2 r2, newMeshSet w2 meshResultEx.state ms2 = .ok r2 →
       r2.state.mesh_color = ((0:ℚ), 0, 0) ∧ ∀ a ∈ r2.state.actors, a.color = ((0:ℚ), 0, 0)) :=
  ⟨by decide, by decide,
   mesh_outline_blackens_mesh_color scene0 initMeshState [meshEx] meshResultEx (by decide)
     (by decide)⟩

/-- A wrapping `vtkActor`: style applied at creation, polyline cells, and
current point coordinates. -/
structure WrapActor where
  color : Color
  opacity : ℚ
  cells : List (List Int)
  points : List Vec3
deriving DecidableEq

/-- Default wrapping actor used only as the `getD` fallback. -/
def wrapActorDefault : WrapActor := { color := (0, 0, 0), opacity := 0, cells := [], points := [] }

/-- The wrapping slice of `VtkModel` state: one sub-list of wrappings and
one sub-list of actors per owning segment. -/
structure WrapState where
  all_wrappings : List (List Mesh)
  wrapping_color : Color
  wrapping_opacity : ℚ
  actors : List (List WrapActor)
deriving DecidableEq

/-- The creation loop of `new_wrapping_set`
(src/bioviz/biorbd_vtk.py:952-984): per wrapping, check the one-frame
guard, insert one PLACEHOLDER point `[0, 0, 0]` per channel (line 958 —
unlike the mesh rebuild, the real coordinates are not used here), build
the closed polylines from the triangle table, style the actor, add it to
the renderer and reset the camera. -/
def wrapBuildLoop : Scene → Color → ℚ → List Mesh → Except Err (Scene × List WrapActor)
  | w, _, _, [] => .ok (w, [])
  | w, c, o, m :: rest =>
    if m.timeSize ≠ 1 then .error .invalidFrame
    else
      (wrapBuildLoop { w with addCount := w.addCount + 1, resetCount := w.resetCount + 1 }
          c o rest).map
        fun pr => (pr.1, ({ color := c, opacity := o, cells := outlineCells m,
                            points := List.replicate m.points.length ((0:ℚ), 0, 0) } :
                            WrapActor) :: pr.2)

/-- `VtkModel.new_wrapping_set` (src/bioviz/biorbd_vtk.py:928-987) on a
list input for segment `seg`: store the sub-list, remove that segment's
previous actors, run the creation loop, and store the new actors. The
closing `self.update_wrapping(...)` call is COMMENTED OUT in the source
(lines 986-987), so no update pass runs and the new actors keep their
placeholder origin points. -/
def newWrappingSet (w : Scene) (s : WrapState) (ws : List Mesh) (seg : Nat) :
    Except Err (Scene × WrapState) :=
  if s.all_wrappings.length ≤ seg ∨ s.actors.length ≤ seg then .error .indexErr
  else
    match wrapBuildLoop
        { w with removeCount := w.removeCount + (s.actors.getD seg []).length }
        s.wrapping_color s.wrapping_opacity ws with
    | .error e => .error e
    | .ok (w2, newActs) =>
      .ok (w2, { all_wrappings := s.all_wrappings.set seg ws,
                 wrapping_color := s.wrapping_color,
                 wrapping_opacity := s.wrapping_opacity,
                 actors := (s.actors.set seg []).set seg newActs })

/-- A successful wrapping creation loop produces one actor per wrapping,
each holding one placeholder origin point per channel of its wrapping. -/
theorem wrapBuildLoop_spec :
    ∀ (ws : List Mesh) (w : Scene) (c : Color) (o : ℚ) (w' : Scene) (L : List WrapActor),
      wrapBuildLoop w c o ws = .ok (w', L) →
      L.length = ws.length ∧
      ∀ i, i < ws.length →
        (L.getD i wrapActorDefault).points =
          List.replicate ((ws.getD i meshDefault).points.length) ((0:ℚ), 0, 0) := by
  intro ws
  induction ws with
  | nil =>
    intro w c o w' L h
    simp only [wrapBuildLoop] at h
    cases h
    exact ⟨rfl, fun i hi => absurd hi (by simp)⟩
  | cons m rest ih =>
    intro w c o w' L h
    by_cases hts : m.timeSize ≠ 1
    · simp only [wrapBuildLoop, if_pos hts] at h
      cases h
    · simp only [wrapBuildLoop, if_neg hts] at h
      cases hm : wrapBuildLoop
          { w with addCount := w.addCount + 1, resetCount := w.resetCount + 1 } c o rest with
      | error e =>
        rw [hm] at h
        simp only [Except.map] at h
        cases h
      | ok pr =>
        rw [hm] at h
        simp only [Except.map] at h
        cases h
        obtain ⟨hlen, hpts⟩ := ih _ _ _ _ _ hm
        refine ⟨by simpa using hlen, ?_⟩
        intro i hi
        cases i with
        | zero => simp [List.getD_cons_zero]
        | succ i =>
          simp only [List.getD_cons_succ]
          exact hpts i (by simpa using hi)

/-- A one-channel single-frame wrapping whose point is (1, 2, 3). -/
def wrapEx : Mesh := { timeSize := 1, points := [(1, 2, 3)], tRows := [], tNcols := 0 }

/-- A wrapping state with one segment holding no wrappings and no actors
(the shape `update_wrapping` initializes before its first rebuild). -/
def wrapState0 : WrapState :=
  { all_wrappings := [[]], wrapping_color := (0, 0, 1), wrapping_opacity := 1, actors := [[]] }

/-- C8 counterexample: rebuilding segment 0's wrapping list with a
one-channel wrapping at point (1, 2, 3) leaves the new actor at the
placeholder origin — the claim requires the rebuild to end with the update
pass so the actor already carries the frame's geometry, but that call is
commented out in `new_wrapping_set`. -/
theorem wrapping_rebuild_placeholder_counterexample :
    ((newWrappingSet scene0 wrapState0 [wrapEx] 0).map
      fun pr => (pr.2.actors.getD 0 []).map fun a => a.points) = .ok [[((0:ℚ), 0, 0)]] ∧
    wrapEx.points = [((1:ℚ), 2, 3)] ∧
    ([((0:ℚ), 0, 0)] : List Vec3) ≠ [((1:ℚ), 2, 3)] :=
  ⟨by decide, rfl, by decide⟩

/-- C8 amended: the marker-category rebuild does end with the update pass
— on success every new actor already carries the sphere geometry of its
channel — but the wrapping rebuild performs no update pass: on success
every new actor of the rebuilt segment holds one placeholder origin point
per channel instead of the frame's coordinates (positions are applied only
later, by the enclosing `update_wrapping` loop). -/
theorem rebuild_final_update_pass_amended :
    (∀ w s f r, newMarkerSet w s f = .ok r →
      ∀ i, i < r.state.actors.length →
        (r.state.actors.getD i SphereActor.fresh).geom =
          some { center := f.points.getD i ((0:ℚ), 0, 0), radius := s.size }) ∧
    (∀ w s ws seg w' s', newWrappingSet w s ws seg = .ok (w', s') →
      ∀ i, i < ws.length →
        ((s'.actors.getD seg []).getD i wrapActorDefault).points =
          List.replicate ((ws.getD i meshDefault).points.length) ((0:ℚ), 0, 0)) := by
  constructor
  · intro w s f r h
    by_cases ht : f.timeSize = 1
    · rw [newMarkerSet_eq w s f ht] at h
      cases h
      intro i hi
      simp only [List.length_map, List.length_range] at hi
      rw [getD_range_map _ _ _ _ hi]
    · rw [show newMarkerSet w s f = newMarkerSetF (1 + 1) w s f from rfl] at h
      simp [newMarkerSetF, ht] at h
  · intro w s ws seg w' s' h
    rw [newWrappingSet] at h
    split at h
    · cases h
    · rename_i hseg
      cases hm : wrapBuildLoop
          { w with removeCount := w.removeCount + (s.actors.getD seg []).length }
          s.wrapping_color s.wrapping_opacity ws with
      | error e =>
        rw [hm] at h
        cases h
      | ok pr =>
        obtain ⟨w2, newActs⟩ := pr
        rw [hm] at h
        cases h
        obtain ⟨hlen, hpts⟩ := wrapBuildLoop_spec ws _ _ _ _ _ hm
        intro i hi
        have hseg2 : seg < s.actors.length := by
          rcases not_or.mp hseg with ⟨_, h2⟩
          omega
        have hset : ((s.actors.set seg []).set seg newActs).getD seg [] = newActs := by
          rw [List.getD_eq_getElem?_getD, List.getElem?_set_self (by simpa using hseg2)]
          rfl
        rw [hset]
        exact hpts i hi

/-- The renderer counters after the witness wrapping rebuild. -/
def wrapResultScene : Scene := { addCount := 1, removeCount := 0, resetCount := 1 }

/-- The wrapping state after the witness rebuild of segment 0 with
`[wrapEx]`: one actor with placeholder origin points. -/
def wrapResultState : WrapState :=
  { all_wrappings := [[wrapEx]], wrapping_color := (0, 0, 1), wrapping_opacity := 1,
    actors := [[{ color := (0, 0, 1), opacity := 1, cells := [], points := [(0, 0, 0)] }]] }

/-- Witness for `rebuild_final_update_pass_amended`: a concrete marker
rebuild and a concrete wrapping rebuild, checked by evaluation. -/
theorem rebuild_final_update_pass_amended_witness :
    newMarkerSet scene0 initMarkersState frameOnePoint = .ok markersResultOne ∧
    (∀ i, i < markersResultOne.state.actors.length →
      (markersResultOne.state.actors.getD i SphereActor.fresh).geom =
        some { center := frameOnePoint.points.getD i ((0:ℚ), 0, 0),
               radius := initMarkersState.size }) ∧
    newWrappingSet scene0 wrapState0 [wrapEx] 0 = .ok (wrapResultScene, wrapResultState) ∧
    (∀ i, i < [wrapEx].length →
      ((wrapResultState.actors.getD 0 []).getD i wrapActorDefault).points =
        List.replicate (([wrapEx].getD i meshDefault).points.length) ((0:ℚ), 0, 0)) :=
  ⟨by decide,
   rebuild_final_update_pass_amended.1 scene0 initMarkersState frameOnePoint markersResultOne
     (by decide),
   by decide,
   rebuild_final_update_pass_amended.2 scene0 wrapState0 [wrapEx] 0 wrapResultScene
     wrapResultState (by decide)⟩

/-- A one-channel single-frame mesh at the origin with no triangles. -/
def meshA : Mesh := { timeSize := 1, points := [(0, 0, 0)], tRows := [], tNcols := 0 }

/-- A one-channel single-frame mesh at (1, 1, 1) with no triangles. -/
def meshB : Mesh := { timeSize := 1, points := [(1, 1, 1)], tRows := [], tNcols := 0 }

/-- A one-channel single-frame mesh at (5, 5, 5) with no triangles. -/
def meshC : Mesh := { timeSize := 1, points := [(5, 5, 5)], tRows := [], tNcols := 0 }

/-- The result of pushing `[meshA, meshB]` into the fresh mesh category:
a rebuild creating two actors. -/
def meshRebuildTwo : MeshResult :=
  { scene := { addCount := 2, removeCount := 0, resetCount := 2 },
    state := { all_meshes := [meshA, meshB], mesh_color := (0, 0, 0),
               mesh_opacity := qMeshOpacity,
               actors := [{ topo := .outline [], color := (0, 0, 0), opacity := qMeshOpacity,
                            points := [(0, 0, 0)] },
                          { topo := .outline [], color := (0, 0, 0), opacity := qMeshOpacity,
                            points := [(1, 1, 1)] }] },
    passes := 1, rebuilds := 1 }

/-- The result of then pushing the strictly shorter list `[meshC]`: the
fast path repositions the first actor and leaves the second alive, so two
actors remain while only one mesh is stored. -/
def meshFastShort : MeshResult :=
  { scene := { addCount := 2, removeCount := 0, resetCount := 2 },
    state := { all_meshes := [meshC], mesh_color := (0, 0, 0),
               mesh_opacity := qMeshOpacity,
               actors := [{ topo := .outline [], color := (0, 0, 0), opacity := qMeshOpacity,
                            points := [(5, 5, 5)] },
                          { topo := .outline [], color := (0, 0, 0), opacity := qMeshOpacity,
                            points := [(1, 1, 1)] }] },
    passes := 1, rebuilds := 0 }

/-- C1 counterexample: for the mesh collection category the invariant is
false. After a rebuild with two meshes (two live actors), pushing the
strictly shorter list `[meshC]` — whose single channel count matches the
stored first mesh's — returns without raising and without rebuilding
(`update_mesh`'s scan enumerates only the incoming list, so the length
check never fires), storing a one-sub-entity frame while both actors stay
alive: 2 live actors versus 1 sub-entity of the most recently accepted
frame. -/
theorem actor_count_invariant_counterexample :
    updateMesh scene0 initMeshState [meshA, meshB] = .ok meshRebuildTwo ∧
    updateMesh meshRebuildTwo.scene meshRebuildTwo.state [meshC] = .ok meshFastShort ∧
    meshFastShort.rebuilds = 0 ∧
    meshFastShort.state.actors.length = 2 ∧
    meshFastShort.state.all_meshes.length = 1 ∧
    (2 : Nat) ≠ 1 :=
  ⟨by decide, by decide, rfl, rfl, rfl, by decide⟩

/-- C1 amended: for the sphere categories the invariant holds as claimed —
shown for the marker category: live actor count equals the accepted
frame's channel count in the fresh state and after every `update_markers`
call and every style setter that returns without raising. For the mesh
collection category, every rebuild (re-)establishes the equality between
actor count and stored sub-entity count, but a fast-path update keeps the
previous actor count while storing the pushed list, so pushing a strictly
shorter prefix-matching list leaves more live actors than stored
sub-entities until the next rebuild. -/
theorem actor_count_invariant_amended :
    (markersInv initMarkersState ∧
     (∀ w s f r, markersInv s → updateMarkers w s f = .ok r → markersInv r.state) ∧
     (∀ w s c r, markersInv s → setMarkersColor w s c = .ok r → markersInv r.state) ∧
     (∀ w s v r, markersInv s → setMarkersSize w s v = .ok r → markersInv r.state) ∧
     (∀ w s v r, markersInv s → setMarkersOpacity w s v = .ok r → markersInv r.state)) ∧
    (∀ w s ms r, newMeshSet w s ms = .ok r →
      r.state.actors.length = r.state.all_meshes.length) ∧
    (∀ w s ms r, updateMesh w s ms = .ok r → r.rebuilds = 0 →
      r.state.actors.length = s.actors.length ∧ r.state.all_meshes = ms) := by
  refine ⟨⟨rfl, fun w s f r hs h => updateMarkers_inv w s f r hs h,
    fun w s c r hs h => updateMarkers_inv w { s with color := c } s.markers r hs h,
    fun w s v r hs h => updateMarkers_inv w { s with size := v } s.markers r hs h,
    fun w s v r hs h => updateMarkers_inv w { s with opacity := v } s.markers r hs h⟩, ?_, ?_⟩
  · intro w s ms r h
    obtain ⟨h1, h2, _, _, _, _, _, _⟩ := newMeshSet_spec w s ms r h
    rw [h1, h2]
  · intro w s ms r h hr0
    rw [show updateMesh w s ms = updateMeshF (2 + 1) w s ms from rfl] at h
    simp only [updateMeshF] at h
    cases hscan : meshScan s.all_meshes ms 0 with
    | error e =>
      rw [hscan] at h
      cases h
    | ok b =>
      rw [hscan] at h
      cases b with
      | true =>
        have h2 := (newMeshSet_counts w s ms r h).2
        omega
      | false =>
        cases hf : meshFastActors ms s.actors with
        | error e =>
          rw [hf] at h
          simp only [Except.map] at h
          cases h
        | ok acts' =>
          rw [hf] at h
          simp only [Except.map] at h
          cases h
          exact ⟨meshFastActors_length ms s.actors acts' hf, rfl⟩

/-- Witness for `actor_count_invariant_amended`: the concrete marker
rebuild from the fresh state, the concrete two-mesh rebuild, and the
concrete shorter fast-path push, checked by evaluation. -/
theorem actor_count_invariant_amended_witness :
    (markersInv initMarkersState ∧
     updateMarkers scene0 initMarkersState frameOnePoint = .ok markersResultOne ∧
     markersInv markersResultOne.state) ∧
    (newMeshSet scene0 initMeshState [meshA, meshB] = .ok meshRebuildTwo ∧
     meshRebuildTwo.state.actors.length = meshRebuildTwo.state.all_meshes.length) ∧
    (updateMesh meshRebuildTwo.scene meshRebuildTwo.state [meshC] = .ok meshFastShort ∧
     meshFastShort.rebuilds = 0 ∧
     meshFastShort.state.actors.length = meshRebuildTwo.state.actors.length ∧
     meshFastShort.state.all_meshes = [meshC]) :=
  ⟨⟨actor_count_invariant_amended.1.1, by decide,
    actor_count_invariant_amended.1.2.1 scene0 initMarkersState frameOnePoint markersResultOne
      rfl (by decide)⟩,
   ⟨by decide,
    actor_count_invariant_amended.2.1 scene0 initMeshState [meshA, meshB] meshRebuildTwo
      (by decide)⟩,
   ⟨by decide, rfl,
    (actor_count_invariant_amended.2.2 meshRebuildTwo.scene meshRebuildTwo.state [meshC]
      meshFastShort (by decide) rfl).1,
    (actor_count_invariant_amended.2.2 meshRebuildTwo.scene meshRebuildTwo.state [meshC]
      meshFastShort (by decide) rfl).2⟩⟩

end BiorbdVtk
